import Mathlib

/-!
Verification of the tt-wordwise background coordination core.

The definitions below are a shallow embedding of the TypeScript sources:
  * `src/lib/readabilityScore.ts` (grammar-check scheduler: hashing, cache,
    cost ledger, throttling, `checkGrammar`, `DebouncedGrammarChecker`);
  * `src/unnamed/part_004` (the `AutosaveEngine` variant with title tracking,
    the minimum content-change threshold and the in-flight save guard);
  * `src/unnamed/part_003` (`useGrammarCheck`, the caller-side minimum
    sentence length gate);
  * `src/lib/documentService.ts` (`checkWords`, the spell-check batch call).

JavaScript strings are modelled as `List Char` (one element per UTF-16 code
unit; all inputs of interest lie in the Basic Latin range).  JavaScript
numbers used as integers (timestamps, lengths, bit-twiddled hash values) are
modelled as `Int`/`Nat`, with 32-bit wrap-around made explicit where the
source relies on it; dollar costs are modelled as `Rat`.  Asynchronous code
is modelled as an explicit step function over the engine state, with one
event per suspension point (timer delivery, network completion).
-/

set_option maxRecDepth 8000

namespace Wordwise

/-! ### JavaScript string primitives -/

/-- The characters removed by `String.prototype.trim` (ASCII whitespace,
line terminators and NBSP; the inputs of interest contain only these). -/
def jsWhitespace (c : Char) : Bool :=
  c.toNat = 9 || c.toNat = 10 || c.toNat = 11 || c.toNat = 12 ||
  c.toNat = 13 || c.toNat = 32 || c.toNat = 160

/-- `String.prototype.trim`: drop leading and trailing whitespace. -/
def jsTrim (s : List Char) : List Char :=
  ((s.dropWhile jsWhitespace).reverse.dropWhile jsWhitespace).reverse

/-- `String.prototype.toLowerCase` restricted to the Basic Latin range:
`A`–`Z` map to `a`–`z`, every other code unit is unchanged. -/
def jsLower (c : Char) : Char :=
  if 65 ≤ c.toNat ∧ c.toNat ≤ 90 then Char.ofNat (c.toNat + 32) else c

/-- JavaScript `ToInt32`: wrap an integer into `[-2^31, 2^31)`. -/
def toInt32 (n : Int) : Int :=
  (n + 2 ^ 31) % 2 ^ 32 - 2 ^ 31

/-! ### Grammar-check service (`src/lib/readabilityScore.ts`) -/

/-- One loop iteration of `hashSentence`:
`hash = ((hash << 5) - hash) + char; hash = hash & hash;`.
`hash << 5` coerces to int32 and wraps; the subtraction and addition are
exact double arithmetic; `hash & hash` wraps the result back to int32. -/
def hashStep (hash : Int) (c : Char) : Int :=
  toInt32 (toInt32 (hash * 32) - hash + c.toNat)

/-- The 32-bit accumulator of `hashSentence` over an already-cleaned string. -/
def jsHash (s : List Char) : Int :=
  s.foldl hashStep 0

/-- Digit characters used by `Number.prototype.toString(36)`. -/
def base36Digit (n : Nat) : Char :=
  if n < 10 then Char.ofNat (48 + n) else Char.ofNat (87 + n)

/-- Digit-emission loop of `toString(36)`.  The first argument is fuel
bounding the number of iterations; `n` itself always suffices since the
remaining value shrinks on every step. -/
def natToBase36Go : Nat → Nat → List Char → List Char
  | 0, _, acc => acc
  | fuel + 1, n, acc =>
      if n = 0 then acc
      else natToBase36Go fuel (n / 36) (base36Digit (n % 36) :: acc)

/-- `Number.prototype.toString(36)` for natural numbers. -/
def natToBase36 (n : Nat) : List Char :=
  if n = 0 then ['0'] else natToBase36Go (n + 1) n []

/-- The cleaned form `sentence.trim().toLowerCase()` used by `hashSentence`. -/
def cleanSentence (sentence : List Char) : List Char :=
  (jsTrim sentence).map jsLower

/-- `hashSentence`: hash of `sentence.trim().toLowerCase()`, rendered as
`Math.abs(hash).toString(36)`.  This string is the cache key. -/
def hashSentence (sentence : List Char) : List Char :=
  natToBase36 (jsHash (cleanSentence sentence)).natAbs

inductive SuggKind
  | grammar
  | style
  | clarity
deriving DecidableEq

structure GrammarSuggestion where
  kind : SuggKind
  original : List Char
  suggestion : List Char
  reason : List Char
deriving DecidableEq

structure GrammarMeta where
  duration : Int
  estimatedCost : Rat
  inputTokens : Nat
  outputTokens : Nat
  sentenceLength : Nat
deriving DecidableEq

structure GrammarCheckResult where
  suggestions : List GrammarSuggestion
  score : Int
  improved_score : Int
  flesch_kincaid_grade : Option Rat
  metadata : Option GrammarMeta
deriving DecidableEq

/-- One entry of the localStorage grammar cache. -/
structure CachedGrammarResult where
  timestamp : Int
  suggestions : List GrammarSuggestion
  score : Int
  improved_score : Int
  flesch_kincaid_grade : Option Rat
deriving DecidableEq

/-- The persisted cost-tracking record (`grammarCheck_costTracking`). -/
structure CostData where
  totalCost : Rat
  resetTime : Int
deriving DecidableEq

/-- Module-level mutable state of the grammar-check service. -/
structure GrammarState where
  /-- localStorage `grammarCheck_cache`, keyed by `hashSentence` output. -/
  cache : List (List Char × CachedGrammarResult)
  /-- localStorage `grammarCheck_costTracking` (`none` = key absent). -/
  costData : Option CostData
  lastRequestTime : Int
  requestCount : Nat
deriving DecidableEq

def THROTTLE_INTERVAL : Int := 2000

/-- `$0.10` per hour.  (`mkRat 1 10 = 1/10`; `mkRat` is used throughout so
that comparisons evaluate by kernel reduction.) -/
def MAX_COST_PER_HOUR : Rat := mkRat 1 10

def MAX_CACHE_SIZE : Nat := 100

/-- `getCostTrackingData`: stored data, reset to zero once the hour window
has passed (`Date.now() > data.resetTime`). -/
def getCostTrackingData (now : Int) (stored : Option CostData) : CostData :=
  match stored with
  | none => ⟨0, now + 3600000⟩
  | some d => if now > d.resetTime then ⟨0, now + 3600000⟩ else d

/-- `updateCostTrackingData`: add a cost to the ledger, keeping the window. -/
def updateCostTrackingData (now : Int) (cost : Rat) (stored : Option CostData) :
    Option CostData :=
  let cur := getCostTrackingData now stored
  some ⟨cur.totalCost + cost, cur.resetTime⟩

/-- `isCostLimitExceeded`: `data.totalCost >= MAX_COST_PER_HOUR`. -/
def isCostLimitExceeded (now : Int) (stored : Option CostData) : Bool :=
  decide (MAX_COST_PER_HOUR ≤ (getCostTrackingData now stored).totalCost)

/-- `isThrottled`: less than `THROTTLE_INTERVAL` since the last request. -/
def isThrottled (now lastRequestTime : Int) : Bool :=
  decide (now - lastRequestTime < THROTTLE_INTERVAL)

/-- `getCachedResult`: look the sentence hash up in the cache and return the
stored result when the entry is younger than 24 hours. -/
def getCachedResult (now : Int) (cache : List (List Char × CachedGrammarResult))
    (sentence : List Char) : Option GrammarCheckResult :=
  match cache.find? (fun p => decide (p.1 = hashSentence sentence)) with
  | some p =>
      if now - 24 * 60 * 60 * 1000 < p.2.timestamp then
        some ⟨p.2.suggestions, p.2.score, p.2.improved_score,
              p.2.flesch_kincaid_grade, none⟩
      else none
  | none => none

/-- `cacheResult`: insert (or overwrite) the entry for the sentence hash,
then, if the cache exceeds `MAX_CACHE_SIZE`, keep only the entries with the
most recent timestamps. -/
def cacheResult (now : Int) (sentence : List Char) (result : GrammarCheckResult)
    (cache : List (List Char × CachedGrammarResult)) :
    List (List Char × CachedGrammarResult) :=
  let hash := hashSentence sentence
  let entry : CachedGrammarResult :=
    ⟨now, result.suggestions, result.score, result.improved_score,
     result.flesch_kincaid_grade⟩
  let cache1 :=
    if cache.any (fun p => decide (p.1 = hash)) then
      cache.map (fun p => if p.1 = hash then (hash, entry) else p)
    else cache ++ [(hash, entry)]
  if MAX_CACHE_SIZE < cache1.length then
    (cache1.mergeSort (fun a b => decide (a.2.timestamp ≤ b.2.timestamp))).drop
      (cache1.length - MAX_CACHE_SIZE)
  else cache1

/-- Outcome of the `/api/grammar-check` fetch: a parsed result, or any
failure (network error or non-OK HTTP status, both of which throw). -/
inductive OracleResponse
  | ok (result : GrammarCheckResult)
  | fail (msg : List Char)

/-- The observable outcome of one `checkGrammar` call.  The constructors
other than `checked`/`errOracle` are produced without touching the network. -/
inductive CheckOutcome
  | errEmptySentence
  | cachedHit (r : GrammarCheckResult)
  | errCostLimit
  | errThrottle
  | checked (r : GrammarCheckResult)
  | errOracle (msg : List Char)
deriving DecidableEq

/-- `checkGrammar(sentence, fullText)`: empty-sentence guard, cache lookup,
cost-limit check, throttle check, then the oracle call (which updates
`lastRequestTime`/`requestCount`, adds the oracle-reported cost to the
ledger when present and nonzero, and writes the cache). -/
def checkGrammar (now : Int) (sentence : List Char) (resp : OracleResponse)
    (st : GrammarState) : CheckOutcome × GrammarState :=
  if (jsTrim sentence).isEmpty then (.errEmptySentence, st)
  else
    match getCachedResult now st.cache sentence with
    | some r => (.cachedHit r, st)
    | none =>
        if isCostLimitExceeded now st.costData then (.errCostLimit, st)
        else if isThrottled now st.lastRequestTime then (.errThrottle, st)
        else
          let st1 := { st with lastRequestTime := now,
                               requestCount := st.requestCount + 1 }
          match resp with
          | .fail msg => (.errOracle msg, st1)
          | .ok r =>
              let st2 :=
                match r.metadata with
                | some m =>
                    if m.estimatedCost ≠ 0 then
                      { st1 with costData :=
                          updateCostTrackingData now m.estimatedCost st1.costData }
                    else st1
                | none => st1
              (.checked r, { st2 with cache := cacheResult now sentence r st2.cache })

/-! ### `DebouncedGrammarChecker` (`src/lib/readabilityScore.ts`)

Instance state: the pending timeout (with the sentence captured when it was
scheduled), the `isChecking` re-entrancy flag, and `lastCheckedText`.
Events are modelled atomically: `scheduleCheck` is synchronous in the
source; the timeout callback (including its `await checkGrammar`) is the
`fire` event, whose boolean says whether the check succeeded. -/

structure CheckerState where
  /-- `timeoutId` together with the sentence the callback closes over. -/
  pending : Option (List Char)
  isChecking : Bool
  lastCheckedText : List Char
deriving DecidableEq

/-- `scheduleCheck`: skip when the sentence equals `lastCheckedText`,
otherwise clear any existing timeout and schedule a new one.  The boolean
reports whether a timeout was scheduled. -/
def scheduleCheck (sentence : List Char) (st : CheckerState) :
    CheckerState × Bool :=
  if sentence = st.lastCheckedText then (st, false)
  else ({ st with pending := some sentence }, true)

/-- The timeout callback: skip when `isChecking`, otherwise record the
sentence in `lastCheckedText` (before the check runs, so on success and on
failure alike) and run `checkGrammar`. -/
def fireCheck (st : CheckerState) : CheckerState :=
  match st.pending with
  | none => st
  | some s =>
      if st.isChecking then { st with pending := none }
      else { st with pending := none, lastCheckedText := s }

inductive GcEvent
  | schedule (s : List Char)
  | fire (success : Bool)

/-- One event of a `DebouncedGrammarChecker` run.  Alongside the instance
state we carry the specification-level bookkeeping `lastSuccess`: the text
of the most recent check that fired and succeeded. -/
def gcStep : CheckerState × Option (List Char) → GcEvent →
    CheckerState × Option (List Char)
  | (st, ghost), .schedule s => ((scheduleCheck s st).1, ghost)
  | (st, ghost), .fire success =>
      let ghost' :=
        match st.pending with
        | some s => if st.isChecking then ghost
                    else if success then some s else ghost
        | none => ghost
      (fireCheck st, ghost')

def gcRun (init : CheckerState × Option (List Char)) (evts : List GcEvent) :
    CheckerState × Option (List Char) :=
  evts.foldl gcStep init

/-! ### Autosave engine (`src/unnamed/part_004`)

Every map of the engine is keyed by `documentId` and the claims are
per-document, so the state below is the projection of the engine onto one
fixed document.  The debounce timer and the backoff retry timer are
separate `setTimeout`s in the source (only the former is stored in
`this.timers`); each is modelled as an optional `(fire time, payload)`
pair.  The suspension point inside `performAutosave` splits the save into
a `saveStarted` output (the code before `await saveDoc`) and a `complete`
event (the code after it).  The 3-second `saved → idle` display timer is
not modelled; no claim refers to it. -/

/-- `UpdateDocumentData`: the partial `{title?, content?}` payload. -/
structure SaveData where
  title : Option (List Char)
  content : Option (List Char)
deriving DecidableEq

inductive AsStatus
  | idle
  | pending
  | saving
  | saved
  | error
deriving DecidableEq

structure AsState where
  status : AsStatus
  lastSaved : Option Int
  errMsg : Option (List Char)
  isDirty : Bool
  /-- `this.timers` entry: the debounce timer and its captured payload. -/
  timer : Option (Int × SaveData)
  /-- The backoff retry `setTimeout` (not stored in `this.timers`). -/
  retryTimer : Option (Int × SaveData)
  /-- `this.retryAttempts` entry (0 = absent). -/
  retryAttempts : Nat
  lastContent : List Char
  lastTitle : List Char
  /-- `this.pendingSaves` entry: a save is in flight or retrying. -/
  pendingSave : Bool
  /-- Payload of a save currently awaiting the persistence gateway. -/
  inFlight : Option SaveData
deriving DecidableEq

def AUTOSAVE_DELAY : Int := 10000

def MAX_RETRY_ATTEMPTS : Nat := 3

def RETRY_DELAY_BASE : Int := 1000

def MIN_CONTENT_CHANGE_LENGTH : Nat := 5

namespace Autosave

/-- `AutosaveEngine.isDirty`: title dirty iff it differs from the last
saved title; content dirty iff supplied, different, and either the length
delta reaches the threshold or the title changed too. -/
def isDirty (lastTitle lastContent : List Char) (d : SaveData) : Bool :=
  let currentContent := d.content.getD lastContent
  let currentTitle := d.title.getD lastTitle
  let titleChanged := decide (currentTitle ≠ lastTitle)
  let contentChanged :=
    match d.content with
    | none => false
    | some _ =>
        decide (currentContent ≠ lastContent) &&
          (decide (MIN_CONTENT_CHANGE_LENGTH ≤
              ((currentContent.length : Int) - (lastContent.length : Int)).natAbs) ||
            decide (currentTitle ≠ lastTitle))
  titleChanged || contentChanged

end Autosave

inductive SaveOutcome
  | ok
  | fail (msg : List Char)
deriving DecidableEq

inductive AsEvent
  | call (t : Int) (d : SaveData)
  | fireDebounce (t : Int)
  | fireRetry (t : Int)
  | complete (t : Int) (outcome : SaveOutcome)

inductive AsOut
  | saveStarted (d : SaveData)
  | docSaved
  | saveError (msg : List Char)
deriving DecidableEq

/-- The `Retrying... (n/3)` message set while in backoff. -/
def retryMsg (n : Nat) : List Char :=
  ("Retrying... (" ++ toString n ++ "/3)").data

/-- The synchronous head of `performAutosave`: set the in-flight guard and
the `saving` status, then issue the gateway call. -/
def startSave (d : SaveData) (st : AsState) : AsState × List AsOut :=
  ({ st with pendingSave := true, status := .saving, inFlight := some d },
   [.saveStarted d])

/-- One scheduler event of the autosave engine. -/
def stepA (st : AsState) : AsEvent → AsState × List AsOut
  | .call t d =>
      if st.pendingSave then (st, [])
      else if Autosave.isDirty st.lastTitle st.lastContent d then
        ({ st with isDirty := true, status := .pending,
                   timer := some (t + AUTOSAVE_DELAY, d) }, [])
      else ({ st with isDirty := false, status := .idle }, [])
  | .fireDebounce t =>
      match st.timer with
      | some p => if p.1 ≤ t then startSave p.2 { st with timer := none }
                  else (st, [])
      | none => (st, [])
  | .fireRetry t =>
      match st.retryTimer with
      | some p => if p.1 ≤ t then startSave p.2 { st with retryTimer := none }
                  else (st, [])
      | none => (st, [])
  | .complete t outcome =>
      match st.inFlight with
      | none => (st, [])
      | some d =>
          match outcome with
          | .ok =>
              ({ st with inFlight := none,
                         lastContent := d.content.getD st.lastContent,
                         lastTitle := d.title.getD st.lastTitle,
                         retryAttempts := 0,
                         status := .saved, lastSaved := some t,
                         isDirty := false, errMsg := none,
                         pendingSave := false }, [.docSaved])
          | .fail msg =>
              if st.retryAttempts < MAX_RETRY_ATTEMPTS then
                ({ st with inFlight := none,
                           retryAttempts := st.retryAttempts + 1,
                           retryTimer :=
                             some (t + RETRY_DELAY_BASE * 2 ^ st.retryAttempts, d),
                           status := .pending,
                           errMsg := some (retryMsg (st.retryAttempts + 1)),
                           pendingSave := true }, [])
              else
                ({ st with inFlight := none,
                           retryAttempts := 0,
                           status := .error, errMsg := some msg,
                           isDirty := true,
                           pendingSave := false }, [.saveError msg])

/-- Run a list of events, collecting the outputs in order. -/
def runA (st : AsState) : List AsEvent → AsState × List AsOut
  | [] => (st, [])
  | e :: es =>
      let r := stepA st e
      let rr := runA r.1 es
      (rr.1, r.2 ++ rr.2)

/-! ### Sentence extraction (`extractCurrentSentence`) and the caller gate -/

/-- The sentence-terminator characters of the `/[.!?\n]/g` scan. -/
def isTerminator (c : Char) : Bool :=
  c = '.' || c = '!' || c = '?' || c = '\n'

/-- `substring`: the code units from index `s` (inclusive) to `e`
(exclusive).  Valid for `s ≤ e`; the callers below always satisfy this. -/
def jsSub (text : List Char) (s e : Nat) : List Char :=
  (text.drop s).take (e - s)

def terminatorIdxsAux : List Char → Nat → List Nat
  | [], _ => []
  | c :: cs, i =>
      if isTerminator c then i :: terminatorIdxsAux cs (i + 1)
      else terminatorIdxsAux cs (i + 1)

/-- Indices of all terminator characters, in order. -/
def terminatorIdxs (text : List Char) : List Nat :=
  terminatorIdxsAux text 0

/-- The `(lastEnd, match.index + 1)` spans produced by the scan loop. -/
def spansAux : List Nat → Nat → List (Nat × Nat)
  | [], _ => []
  | i :: is, lastEnd => (lastEnd, i + 1) :: spansAux is (i + 1)

def rawSpans (text : List Char) : List (Nat × Nat) :=
  spansAux (terminatorIdxs text) 0

/-- The value of `lastEnd` after the scan loop. -/
def lastEndOf (text : List Char) : Nat :=
  match (terminatorIdxs text).getLast? with
  | some i => i + 1
  | none => 0

structure Seg where
  start : Nat
  stop : Nat
  text : List Char
deriving DecidableEq

/-- The `sentences` array: each span whose trimmed text is nonempty, plus
the trailing fragment when the text does not end at a terminator. -/
def segments (text : List Char) : List Seg :=
  (rawSpans text).filterMap (fun p =>
    let tx := jsTrim (jsSub text p.1 p.2)
    if tx.isEmpty then none else some ⟨p.1, p.2, tx⟩) ++
  (if lastEndOf text < text.length then
    let tx := jsTrim (jsSub text (lastEndOf text) text.length)
    if tx.isEmpty then [] else [⟨lastEndOf text, text.length, tx⟩]
  else [])

/-- `extractCurrentSentence`: the first sentence whose span contains the
cursor, else the trimmed `±100`-character chunk around the cursor.  The
cursor is a `Nat` (the source returns `''` for negative positions); for
the substring model to be faithful the cursor must not exceed
`text.length`, which holds for every genuine cursor offset. -/
def extractCurrentSentence (text : List Char) (cursor : Nat) : List Char :=
  if text.isEmpty then []
  else
    match (segments text).find?
        (fun seg => decide (seg.start ≤ cursor) && decide (cursor ≤ seg.stop)) with
    | some seg => seg.text
    | none => jsTrim (jsSub text (cursor - 100) (min text.length (cursor + 100)))

/-- The gate in `useGrammarCheck.checkGrammar` (`src/unnamed/part_003`):
a check is scheduled only when the extracted sentence is nonempty and its
trimmed length is at least 10. -/
def shouldScheduleCheck (sentence : List Char) : Bool :=
  !sentence.isEmpty && decide (10 ≤ (jsTrim sentence).length)

/-! ### Spell check batch call (`checkWords`, `src/lib/documentService.ts`) -/

structure WordResult where
  word : List Char
  isCorrect : Bool
  suggestions : List (List Char)
deriving DecidableEq

/-- Outcome of the `/api/spell-check` fetch. -/
inductive SpellApiResponse
  | netError
  | httpError (msg : List Char)
  | ok (data : List WordResult)

/-- Word characters kept by `word.replace(/[^\w'-]/g, '')`. -/
def isWordChar (c : Char) : Bool :=
  (48 ≤ c.toNat && c.toNat ≤ 57) || (65 ≤ c.toNat && c.toNat ≤ 90) ||
  (97 ≤ c.toNat && c.toNat ≤ 122) || c = '_' || c = '\x27' || c = '-'

def CACHE_MAX_SIZE : Nat := 1000

abbrev SpellCache := List (List Char × (Bool × List (List Char)))

/-- `Map.set` semantics: overwrite in place, else append. -/
def spellCacheSet (cache : SpellCache) (k : List Char)
    (v : Bool × List (List Char)) : SpellCache :=
  if cache.any (fun p => decide (p.1 = k)) then
    cache.map (fun p => if p.1 = k then (k, v) else p)
  else cache ++ [(k, v)]

/-- The per-item cache update of `checkWords`: clean the word, and if the
cleaned form is nonempty, evict the oldest entry when at capacity and
store the result under the lowercased cleaned word. -/
def spellCacheAdd (cache : SpellCache) (r : WordResult) : SpellCache :=
  let cleanWord := r.word.filter isWordChar
  if cleanWord.isEmpty then cache
  else
    let c := if CACHE_MAX_SIZE ≤ cache.length then cache.drop 1 else cache
    spellCacheSet c (cleanWord.map jsLower) (r.isCorrect, r.suggestions)

/-- `checkWords`: empty input short-circuits; a parsed OK response is
returned as-is (after caching each item); any failure — network error or
non-OK HTTP status — is caught and replaced by one `isCorrect = true`
result with no suggestions per input word.  The function never throws. -/
def checkWords (words : List (List Char)) (resp : SpellApiResponse)
    (cache : SpellCache) : List WordResult × SpellCache :=
  if words.isEmpty then ([], cache)
  else
    match resp with
    | .ok data => (data, data.foldl spellCacheAdd cache)
    | _ => (words.map (fun w => ⟨w, true, []⟩), cache)

/-! ### Shared concrete states and specification-side definitions

Concrete engine states used by counterexamples and witnesses, the
specification-side dirtiness formula, and the burst machinery used to
state the debounce claim. -/

/-- A concrete state whose rolling-hour ledger has reached the cap
(`totalCost = 0.10`), whose window has not reset (`now = 1000000 ≤
resetTime`), and whose cache holds a fresh entry for the sentence. -/
def c1State : GrammarState :=
  { cache := [(hashSentence "the dog runs fast.".data, ⟨1000000, [], 70, 85, none⟩)],
    costData := some ⟨mkRat 1 10, 1003600⟩,
    lastRequestTime := 0,
    requestCount := 0 }

/-- A document state captured mid-save: the debounce timer has fired and a
save of `{content: "hello"}` is awaiting the gateway. -/
def c2State : AsState :=
  { status := .saving, lastSaved := none, errMsg := none, isDirty := true,
    timer := none, retryTimer := none, retryAttempts := 0,
    lastContent := [], lastTitle := [],
    pendingSave := true, inFlight := some ⟨none, some "hello".data⟩ }

/-- Modelled from the spec: "title dirty iff it differs from last-saved
title; content dirty iff the new content differs from last-saved content
AND either (a) the absolute length delta is at least 5 characters OR
(b) the title also changed". -/
def specDirty (lastTitle lastContent : List Char) (d : SaveData) : Prop :=
  d.title.getD lastTitle ≠ lastTitle ∨
    (d.content.getD lastContent ≠ lastContent ∧
      (MIN_CONTENT_CHANGE_LENGTH ≤
          (((d.content.getD lastContent).length : Int) -
            ((lastContent.length : Int))).natAbs ∨
        d.title.getD lastTitle ≠ lastTitle))

/-- A clean (not dirty) call arriving mid-save: the status stays `saving`,
it does not become `idle`. -/
def c5State : AsState :=
  { status := .saving, lastSaved := none, errMsg := none, isDirty := true,
    timer := none, retryTimer := none, retryAttempts := 0,
    lastContent := "same text".data, lastTitle := [],
    pendingSave := true, inFlight := some ⟨none, some "same text".data⟩ }

/-- A document state with a save of `{content: "hello"}` in flight and a
clean retry counter. -/
def c4State : AsState :=
  { status := .saving, lastSaved := none, errMsg := none, isDirty := true,
    timer := none, retryTimer := none, retryAttempts := 0,
    lastContent := [], lastTitle := [],
    pendingSave := true, inFlight := some ⟨none, some "hello".data⟩ }

/-- A burst element: a `scheduleAutosave` call time, its payload, and the
(possibly empty) list of debounce-timer delivery times attempted before
the next call. -/
abbrev Burst := Int × SaveData × List Int

def burstTrace : List Burst → List AsEvent
  | [] => []
  | (t, d, fs) :: rest => .call t d :: (fs.map .fireDebounce ++ burstTrace rest)

/-- The time and payload of the last call of a burst. -/
def lastCall : Burst → List Burst → Int × SaveData
  | x, [] => (x.1, x.2.1)
  | _, y :: ys => lastCall y ys

/-- Well-formedness of a burst against the engine's last-saved baseline:
every payload is dirty, every timer delivery attempted after a call
precedes that call's due time (which follows from deliveries happening
before the next call together with the window condition), and each
successive call arrives strictly within `AUTOSAVE_DELAY` of its
predecessor. -/
def burstOk (title content : List Char) : Burst → List Burst → Prop
  | (t, d, fs), rest =>
      Autosave.isDirty title content d = true ∧
      (∀ t' ∈ fs, t' < t + AUTOSAVE_DELAY) ∧
      match rest with
      | [] => True
      | y :: ys => y.1 < t + AUTOSAVE_DELAY ∧ burstOk title content y ys

/-- A freshly initialized document (empty content, empty title). -/
def c3Base : AsState :=
  { status := .idle, lastSaved := some 0, errMsg := none, isDirty := false,
    timer := none, retryTimer := none, retryAttempts := 0,
    lastContent := [], lastTitle := [], pendingSave := false,
    inFlight := none }

/-! ## Theorems -/

/-! ### C1: cost cap versus cache (corrected)

`checkGrammar` consults the cache *before* the cost-limit check, so a call
whose sentence has a fresh cache entry succeeds from cache even after the
ledger has reached its cap.  `c1_counterexample` exhibits this; the claim
holds for calls whose sentence is not fresh in the cache. -/

/-- C1 counterexample: with the ledger at its cap and the window not yet
reset, a `checkGrammar` call for a sentence that is fresh in the cache is
*not* rejected — it returns the cached result — refuting "rejects ...
regardless of whether the sentence is present in the cache". -/
theorem c1_counterexample :
    isCostLimitExceeded 1000000 c1State.costData = true ∧
    (1000000 : Int) ≤ 1003600 ∧
    checkGrammar 1000000 "the dog runs fast.".data (.fail []) c1State =
      (.cachedHit ⟨[], 70, 85, none, none⟩, c1State) := by
  decide

/-- C1 (amended): once the rolling-hour ledger has reached its cap and
before the window reset time passes, every `checkGrammar` call whose
sentence is *not* fresh in the cache is rejected with the cost-limit error
and no oracle call is made (the outcome is `errCostLimit` and the state —
ledger, cache, throttle clock, request counter — is unchanged). -/
theorem c1_cost_limit_rejects_uncached (now : Int) (sentence : List Char)
    (resp : OracleResponse) (st : GrammarState)
    (hne : (jsTrim sentence).isEmpty = false)
    (hmiss : getCachedResult now st.cache sentence = none)
    (hcap : isCostLimitExceeded now st.costData = true) :
    checkGrammar now sentence resp st = (.errCostLimit, st) := by
  simp [checkGrammar, hne, hmiss, hcap]

/-- Witness for `c1_cost_limit_rejects_uncached` at a concrete input. -/
theorem c1_witness :
    (jsTrim "the cat sat on the mat.".data).isEmpty = false ∧
    getCachedResult 1000000
      { cache := [], costData := some ⟨mkRat 1 10, 1003600⟩,
        lastRequestTime := 0, requestCount := 0 : GrammarState }.cache
      "the cat sat on the mat.".data = none ∧
    checkGrammar 1000000 "the cat sat on the mat.".data (.fail [])
      { cache := [], costData := some ⟨mkRat 1 10, 1003600⟩,
        lastRequestTime := 0, requestCount := 0 } =
      (.errCostLimit,
       { cache := [], costData := some ⟨mkRat 1 10, 1003600⟩,
         lastRequestTime := 0, requestCount := 0 }) :=
  ⟨by decide, by decide,
   c1_cost_limit_rejects_uncached 1000000 "the cat sat on the mat.".data
     (.fail []) _ (by decide) (by decide) (by decide)⟩

/-! ### C6: fresh cache hit (confirmed) -/

/-- C6: a `checkGrammar` call for a (nonempty) sentence whose cache entry
is younger than 24 hours returns the cached result immediately with the
state unchanged — so no network call happens and zero cost is added to the
ledger. -/
theorem c6_cache_hit_returns_immediately (now : Int) (sentence : List Char)
    (resp : OracleResponse) (st : GrammarState)
    (entry : List Char × CachedGrammarResult)
    (hne : (jsTrim sentence).isEmpty = false)
    (hfind : st.cache.find? (fun p => decide (p.1 = hashSentence sentence)) =
      some entry)
    (hfresh : now - 24 * 60 * 60 * 1000 < entry.2.timestamp) :
    checkGrammar now sentence resp st =
      (.cachedHit ⟨entry.2.suggestions, entry.2.score, entry.2.improved_score,
                   entry.2.flesch_kincaid_grade, none⟩, st) := by
  have hfresh' : now - 86400000 < entry.2.timestamp := by omega
  simp [checkGrammar, hne, getCachedResult, hfind, hfresh']

/-- Witness for `c6_cache_hit_returns_immediately`: the spec scenario — a
sentence cached with score 70 is re-submitted within 24h. -/
theorem c6_witness :
    (jsTrim "The dog runs fast.".data).isEmpty = false ∧
    checkGrammar 1000000 "The dog runs fast.".data (.fail [])
      { cache := [(hashSentence "The dog runs fast.".data, ⟨999000, [], 70, 85, none⟩)],
        costData := none, lastRequestTime := 0, requestCount := 0 } =
      (.cachedHit ⟨[], 70, 85, none, none⟩,
       { cache := [(hashSentence "The dog runs fast.".data, ⟨999000, [], 70, 85, none⟩)],
         costData := none, lastRequestTime := 0, requestCount := 0 }) :=
  ⟨by decide,
   c6_cache_hit_returns_immediately 1000000 "The dog runs fast.".data (.fail [])
     _ (hashSentence "The dog runs fast.".data, ⟨999000, [], 70, 85, none⟩)
     (by decide) (by decide) (by decide)⟩

/-! ### C7: cache-key insensitivity (corrected)

`hashSentence` normalizes by `trim().toLowerCase()`: letter case and
*leading/trailing* whitespace are ignored, but interior whitespace is
significant, so two sentences differing only in interior whitespace get
different keys. -/

/-- C7 counterexample: `"hello  world"` and `"hello world"` differ only in
whitespace, yet they hash to different cache keys, and a result cached
(freshly) for the latter is not returned for the former. -/
theorem c7_counterexample :
    hashSentence "hello  world".data ≠ hashSentence "hello world".data ∧
    getCachedResult 0
      [(hashSentence "hello world".data, ⟨0, [], 70, 85, none⟩)]
      "hello  world".data = none := by
  decide

/-- C7 (amended): the cache key depends only on
`sentence.trim().toLowerCase()`, so two sentences that differ only in
letter case or in leading/trailing whitespace map to the same entry and a
cached result for one is returned for the other; interior whitespace
remains significant. -/
theorem c7_hash_normalization (s t : List Char)
    (h : cleanSentence s = cleanSentence t) :
    hashSentence s = hashSentence t ∧
    ∀ (now : Int) (cache : List (List Char × CachedGrammarResult)),
      getCachedResult now cache s = getCachedResult now cache t := by
  have hh : hashSentence s = hashSentence t := by
    simp only [hashSentence, h]
  exact ⟨hh, fun now cache => by simp only [getCachedResult, hh]⟩

/-- Witness for `c7_hash_normalization`: a case/edge-whitespace variant of
a sentence reuses the entry cached for the canonical form. -/
theorem c7_witness :
    cleanSentence "  The DOG Runs Fast. ".data =
      cleanSentence "the dog runs fast.".data ∧
    hashSentence "  The DOG Runs Fast. ".data =
      hashSentence "the dog runs fast.".data ∧
    getCachedResult 5 [(hashSentence "the dog runs fast.".data, ⟨0, [], 70, 85, none⟩)]
        "  The DOG Runs Fast. ".data =
      getCachedResult 5 [(hashSentence "the dog runs fast.".data, ⟨0, [], 70, 85, none⟩)]
        "the dog runs fast.".data :=
  ⟨by decide,
   (c7_hash_normalization "  The DOG Runs Fast. ".data "the dog runs fast.".data
     (by decide)).1,
   (c7_hash_normalization "  The DOG Runs Fast. ".data "the dog runs fast.".data
     (by decide)).2 5 _⟩

/-! ### C8: duplicate suppression in `scheduleCheck` (corrected)

`scheduleCheck` skips when the sentence equals `lastCheckedText`, but the
timeout callback sets `lastCheckedText` *before* awaiting `checkGrammar`,
so the suppression key is the last *attempted* text, successful or not —
not the last *successfully checked* text. -/

/-- C8 counterexample: after a successful check of `"aaaaaaaaaaaa"` and a
*failed* check of `"bbbbbbbbbbbb"`, the last successfully checked text is
`"aaaaaaaaaaaa"`, yet `scheduleCheck "aaaaaaaaaaaa"` is *not* skipped — a
new timeout is scheduled — refuting the claim that calls with text equal
to the last successfully checked text are skipped. -/
theorem c8_counterexample :
    (gcRun (⟨none, false, []⟩, none)
      [.schedule "aaaaaaaaaaaa".data, .fire true,
       .schedule "bbbbbbbbbbbb".data, .fire false]).2 =
        some "aaaaaaaaaaaa".data ∧
    (scheduleCheck "aaaaaaaaaaaa".data
      (gcRun (⟨none, false, []⟩, none)
        [.schedule "aaaaaaaaaaaa".data, .fire true,
         .schedule "bbbbbbbbbbbb".data, .fire false]).1).2 = true := by
  decide

/-- C8 (amended): a `scheduleCheck` call with text identical to the last
*checked* text — the text of the most recent check that fired, whether it
succeeded or failed — is skipped silently: the instance state is unchanged
and no timeout is scheduled (so no oracle call and no error can follow
from this call). -/
theorem c8_duplicate_text_skipped (st : CheckerState) (s : List Char)
    (h : s = st.lastCheckedText) :
    scheduleCheck s st = (st, false) := by
  simp [scheduleCheck, h]

/-- Witness for `c8_duplicate_text_skipped`. -/
theorem c8_witness :
    "aaaaaaaaaaaa".data =
      (⟨none, false, "aaaaaaaaaaaa".data⟩ : CheckerState).lastCheckedText ∧
    scheduleCheck "aaaaaaaaaaaa".data ⟨none, false, "aaaaaaaaaaaa".data⟩ =
      (⟨none, false, "aaaaaaaaaaaa".data⟩, false) :=
  ⟨by decide,
   c8_duplicate_text_skipped ⟨none, false, "aaaaaaaaaaaa".data⟩
     "aaaaaaaaaaaa".data (by decide)⟩

/-! ### C10: spell check fails open (confirmed) -/

/-- C10: if the spell-check API request fails — network error or non-OK
HTTP response — `checkWords` does not propagate the failure: it returns
one result per input word with `isCorrect = true` and empty suggestions,
and leaves the cache untouched, so a backend failure can never mark words
as misspelled or surface as a caller-visible error. -/
theorem c10_checkWords_fails_open (words : List (List Char))
    (resp : SpellApiResponse) (cache : SpellCache)
    (hfail : resp = .netError ∨ ∃ m, resp = .httpError m) :
    checkWords words resp cache =
      (words.map (fun w => ⟨w, true, []⟩), cache) ∧
    ∀ r ∈ (checkWords words resp cache).1,
      r.isCorrect = true ∧ r.suggestions = ([] : List (List Char)) := by
  have hstep : checkWords words resp cache =
      (words.map (fun w => ⟨w, true, []⟩), cache) := by
    rcases hfail with h | ⟨m, h⟩ <;> subst h <;>
      · by_cases hw : words.isEmpty
        · simp [checkWords, hw, List.isEmpty_iff.mp hw]
        · simp [checkWords, hw]
  refine ⟨hstep, ?_⟩
  rw [hstep]
  intro r hr
  obtain ⟨w, -, rfl⟩ := List.mem_map.mp hr
  exact ⟨rfl, rfl⟩

/-- Witness for `c10_checkWords_fails_open`: a failed batch over two words
yields two all-correct results. -/
theorem c10_witness :
    ((.netError : SpellApiResponse) = .netError ∨
      ∃ m, (.netError : SpellApiResponse) = .httpError m) ∧
    checkWords ["helo".data, "world".data] .netError [] =
      ([⟨"helo".data, true, []⟩, ⟨"world".data, true, []⟩], []) :=
  ⟨Or.inl rfl,
   (c10_checkWords_fails_open ["helo".data, "world".data] .netError []
     (Or.inl rfl)).1⟩

/-! ### C9: sentence extraction (corrected)

The splitting, cursor-containment, trailing-fragment and minimum-length
parts of the claim hold, but the fallback clause does not: when the text
contains *no* terminator at all, the whole (trimmed) text is one sentence
whose span `[0, length]` contains every cursor position, so the whole text
— not a `±100`-character window — is returned.  The `±100` window is used
exactly when no sentence span contains the cursor (e.g. the cursor sits in
a whitespace-only tail). -/

theorem terminatorIdxsAux_eq_nil (l : List Char)
    (h : ∀ c ∈ l, isTerminator c = false) :
    ∀ i, terminatorIdxsAux l i = [] := by
  induction l with
  | nil => intro i; rfl
  | cons c cs ih =>
      intro i
      rw [terminatorIdxsAux, h c (List.mem_cons_self c cs)]
      simp only [Bool.false_eq_true, if_false]
      exact ih (fun x hx => h x (List.mem_cons_of_mem c hx)) (i + 1)

/-- With no terminator present and a nonempty trimmed text, the sentence
array is exactly the whole trimmed text spanning `[0, length]`. -/
theorem segments_no_terminator (text : List Char)
    (hterm : ∀ c ∈ text, isTerminator c = false)
    (hne : text ≠ []) (htrim : (jsTrim text).isEmpty = false) :
    segments text = [⟨0, text.length, jsTrim text⟩] := by
  have h1 : terminatorIdxs text = [] := terminatorIdxsAux_eq_nil text hterm 0
  have hlen : 0 < text.length := List.length_pos.mpr hne
  simp [segments, rawSpans, h1, spansAux, lastEndOf, hlen, jsSub, htrim]

/-- C9 counterexample: a 300-character text with no terminator and the
cursor at offset 150.  The claim's fallback says the result is the `±100`
window around the cursor (200 characters here); the code returns the whole
300-character text. -/
theorem c9_counterexample :
    extractCurrentSentence (List.replicate 300 'a') 150 ≠
      jsTrim (jsSub (List.replicate 300 'a') (150 - 100)
        (min (List.replicate 300 'a').length (150 + 100))) ∧
    extractCurrentSentence (List.replicate 300 'a') 150 =
      List.replicate 300 'a' := by
  decide

/-- C9 (amended): the text is split at the terminators `. ! ? \n`; the
active sentence is the first whose span contains the cursor (which covers
the trailing fragment when the cursor lies past the last terminator); when
*no* terminator exists the active sentence is the whole trimmed text (for
any cursor offset within the text) rather than a `±100` window; the
trimmed `±100`-character window around the cursor is the result exactly
when no sentence span contains the cursor; and extracted sentences whose
trimmed length is under 10 characters are not checked. -/
theorem c9_sentence_extraction :
    (∀ (text : List Char) (cursor : Nat) (seg : Seg),
       (segments text).find?
           (fun sg => decide (sg.start ≤ cursor) && decide (cursor ≤ sg.stop)) =
         some seg →
       extractCurrentSentence text cursor = seg.text ∧
         seg.start ≤ cursor ∧ cursor ≤ seg.stop) ∧
    (∀ (text : List Char) (cursor : Nat),
       (∀ c ∈ text, isTerminator c = false) → text ≠ [] →
       (jsTrim text).isEmpty = false → cursor ≤ text.length →
       extractCurrentSentence text cursor = jsTrim text) ∧
    (∀ (text : List Char) (cursor : Nat),
       (segments text).find?
           (fun sg => decide (sg.start ≤ cursor) && decide (cursor ≤ sg.stop)) =
         none →
       extractCurrentSentence text cursor =
         jsTrim (jsSub text (cursor - 100) (min text.length (cursor + 100)))) ∧
    (∀ s : List Char, (jsTrim s).length < 10 → shouldScheduleCheck s = false) := by
  refine ⟨?_, ?_, ?_, ?_⟩
  · intro text cursor seg hfind
    by_cases hemp : text.isEmpty
    · rw [List.isEmpty_iff.mp hemp] at hfind
      simp [segments, rawSpans, terminatorIdxs, terminatorIdxsAux, spansAux,
            lastEndOf] at hfind
    · have hp := List.find?_some hfind
      simp only [Bool.and_eq_true, decide_eq_true_eq] at hp
      exact ⟨by simp [extractCurrentSentence, hemp, hfind], hp.1, hp.2⟩
  · intro text cursor hterm hne htrim hcur
    have hemp : text.isEmpty = false := by
      cases text with
      | nil => exact absurd rfl hne
      | cons c cs => rfl
    rw [extractCurrentSentence, hemp]
    rw [segments_no_terminator text hterm hne htrim]
    simp [List.find?, hcur]
  · intro text cursor hfind
    by_cases hemp : text.isEmpty
    · rw [List.isEmpty_iff.mp hemp]
      simp [extractCurrentSentence, jsSub, jsTrim]
    · simp [extractCurrentSentence, hemp, hfind]
  · intro s h
    have h10 : ¬ (10 ≤ (jsTrim s).length) := by omega
    simp [shouldScheduleCheck, h10]

/-- Witness for `c9_sentence_extraction`, instantiating each conjunct:
the sentence containing the cursor in `"Hi there. How are you?"`; the
whole-text sentence of the terminator-free `"hello world"`; the window
fallback when the cursor sits in the whitespace-only tail of
`"Hi there. \n  "`; and the short-sentence gate on `"short"`. -/
theorem c9_witness :
    extractCurrentSentence "Hi there. How are you?".data 12 =
      "How are you?".data ∧
    extractCurrentSentence "hello world".data 5 = "hello world".data ∧
    extractCurrentSentence "Hi there. \n  ".data 13 =
      jsTrim (jsSub "Hi there. \n  ".data (13 - 100)
        (min "Hi there. \n  ".data.length (13 + 100))) ∧
    shouldScheduleCheck "short".data = false :=
  ⟨(c9_sentence_extraction.1 "Hi there. How are you?".data 12
      ⟨9, 22, "How are you?".data⟩ (by decide)).1,
   c9_sentence_extraction.2.1 "hello world".data 5 (by decide) (by decide)
     (by decide) (by decide),
   c9_sentence_extraction.2.2.1 "Hi there. \n  ".data 13 (by decide),
   c9_sentence_extraction.2.2.2 "short".data (by decide)⟩

/-! ### C2: scheduleAutosave during an in-flight save (corrected)

`scheduleAutosave` returns immediately when `pendingSaves` is set for the
document (part_004 lines 134–137).  It does *not* record the new data or
arrange a follow-up cycle, so an edit arriving mid-save is dropped, not
merely deferred. -/

/-- C2 counterexample: a `scheduleAutosave` call with the newer data
`{content: "hello world"}` arriving while the `"hello"` save is in flight
leaves the engine state entirely unchanged; after the in-flight save then
completes successfully, no timer (debounce or retry) is pending, nothing
is in flight, and the persisted content is `"hello"` — so no subsequent
save cycle with the newest data was guaranteed and the edit was silently
dropped, refuting the second half of the claim. -/
theorem c2_counterexample :
    stepA c2State (.call 5 ⟨none, some "hello world".data⟩) = (c2State, []) ∧
    (runA c2State [.call 5 ⟨none, some "hello world".data⟩,
                   .complete 6 .ok]).2 = [.docSaved] ∧
    (runA c2State [.call 5 ⟨none, some "hello world".data⟩,
                   .complete 6 .ok]).1.timer = none ∧
    (runA c2State [.call 5 ⟨none, some "hello world".data⟩,
                   .complete 6 .ok]).1.retryTimer = none ∧
    (runA c2State [.call 5 ⟨none, some "hello world".data⟩,
                   .complete 6 .ok]).1.inFlight = none ∧
    (runA c2State [.call 5 ⟨none, some "hello world".data⟩,
                   .complete 6 .ok]).1.lastContent = "hello".data := by
  decide

/-- C2 (amended): a `scheduleAutosave` call that arrives while a save for
that document is in flight never starts a second concurrent save — the
call returns immediately with the engine state unchanged — but it is
dropped outright: no follow-up cycle with its data is scheduled, so the
newest data is persisted only if resubmitted after the save completes. -/
theorem c2_inflight_call_dropped (st : AsState) (t : Int) (d : SaveData)
    (h : st.pendingSave = true) :
    stepA st (.call t d) = (st, []) := by
  simp [stepA, h]

/-- Witness for `c2_inflight_call_dropped`. -/
theorem c2_witness :
    c2State.pendingSave = true ∧
    stepA c2State (.call 7 ⟨some "T".data, none⟩) = (c2State, []) :=
  ⟨rfl, c2_inflight_call_dropped c2State 7 ⟨some "T".data, none⟩ rfl⟩

/-! ### C5: the dirtiness judgement (corrected)

The dirtiness formula itself matches the claim exactly
(`specDirty` below is written from the spec's words), and a clean call
becomes `idle` with no timer and no network work — but only when no save
is in flight: during an in-flight save `scheduleAutosave` returns before
the dirtiness check, leaving the status (e.g. `saving`) unchanged. -/

/-- C5 counterexample: a `scheduleAutosave` call whose data is *not* dirty
(`{content: "same text"}` equal to the last-saved content) arriving while
a save is in flight does not transition the state to `idle` — the status
remains `saving` — refuting "when not dirty, the state becomes idle" as a
statement about *every* `scheduleAutosave` call. -/
theorem c5_counterexample :
    Autosave.isDirty c5State.lastTitle c5State.lastContent
      ⟨none, some "same text".data⟩ = false ∧
    (stepA c5State (.call 3 ⟨none, some "same text".data⟩)).1.status = .saving ∧
    (stepA c5State (.call 3 ⟨none, some "same text".data⟩)).1.status ≠ .idle := by
  decide

/-- C5 (amended): the engine judges a `scheduleAutosave` payload dirty
exactly as the spec's formula states (`Autosave.isDirty` agrees with
`specDirty` everywhere); and when the payload is not dirty *and no save is
in flight for the document*, the call sets the state to `idle` (clearing
the dirty flag, all other fields unchanged), starts no timer and performs
no network work. -/
theorem c5_dirtiness :
    (∀ (lt lc : List Char) (d : SaveData),
      Autosave.isDirty lt lc d = true ↔ specDirty lt lc d) ∧
    (∀ (st : AsState) (t : Int) (d : SaveData),
      st.pendingSave = false →
      Autosave.isDirty st.lastTitle st.lastContent d = false →
      stepA st (.call t d) = ({ st with isDirty := false, status := .idle }, [])) := by
  constructor
  · intro lt lc d
    obtain ⟨title, content⟩ := d
    cases title <;> cases content <;>
      simp [Autosave.isDirty, specDirty]
  · intro st t d hps hdirty
    simp [stepA, hps, hdirty]

/-- Witness for `c5_dirtiness`: an unchanged-content, unchanged-title call
on an idle document stays idle; and the dirtiness formula evaluated on a
small content change without a title change. -/
theorem c5_witness :
    (Autosave.isDirty [] "abc".data ⟨none, some "abd".data⟩ = true ↔
      specDirty [] "abc".data ⟨none, some "abd".data⟩) ∧
    stepA { status := .saved, lastSaved := some 0, errMsg := none,
            isDirty := false, timer := none, retryTimer := none,
            retryAttempts := 0, lastContent := "abc".data, lastTitle := [],
            pendingSave := false, inFlight := none }
        (.call 2 ⟨none, some "abc".data⟩) =
      ({ status := .idle, lastSaved := some 0, errMsg := none,
         isDirty := false, timer := none, retryTimer := none,
         retryAttempts := 0, lastContent := "abc".data, lastTitle := [],
         pendingSave := false, inFlight := none }, []) :=
  ⟨c5_dirtiness.1 [] "abc".data ⟨none, some "abd".data⟩,
   c5_dirtiness.2 _ 2 ⟨none, some "abc".data⟩ rfl (by decide)⟩

/-! ### C4: retry with exponential backoff (confirmed) -/

/-- A failed completion with retries left: schedule a retry after
`RETRY_DELAY_BASE * 2 ^ attempts`, bump the counter, stay `pending` with
the retrying message, and keep the in-flight guard set. -/
theorem stepA_fail_retry (st : AsState) (t : Int) (m : List Char) (d : SaveData)
    (hin : st.inFlight = some d) (hlt : st.retryAttempts < MAX_RETRY_ATTEMPTS) :
    stepA st (.complete t (.fail m)) =
      ({ st with inFlight := none, retryAttempts := st.retryAttempts + 1,
                 retryTimer := some (t + RETRY_DELAY_BASE * 2 ^ st.retryAttempts, d),
                 status := .pending, errMsg := some (retryMsg (st.retryAttempts + 1)),
                 pendingSave := true }, []) := by
  simp [stepA, hin, hlt]

/-- A failed completion with retries exhausted: transition to `error`,
keep the document dirty, clear the guard and counters, emit the
save-error notification. -/
theorem stepA_fail_exhausted (st : AsState) (t : Int) (m : List Char)
    (d : SaveData) (hin : st.inFlight = some d)
    (hge : MAX_RETRY_ATTEMPTS ≤ st.retryAttempts) :
    stepA st (.complete t (.fail m)) =
      ({ st with inFlight := none, retryAttempts := 0, status := .error,
                 errMsg := some m, isDirty := true,
                 pendingSave := false }, [.saveError m]) := by
  have h : ¬ st.retryAttempts < MAX_RETRY_ATTEMPTS := by omega
  simp [stepA, hin, h]

/-- A due retry timer re-attempts the retained payload. -/
theorem stepA_fireRetry_due (st : AsState) (ft t : Int) (d : SaveData)
    (h : st.retryTimer = some (ft, d)) (hdue : ft ≤ t) :
    stepA st (.fireRetry t) =
      ({ st with retryTimer := none, pendingSave := true, status := .saving,
                 inFlight := some d }, [.saveStarted d]) := by
  simp [stepA, startSave, h, hdue]

/-- C4: starting from a save in flight with a clean retry counter, under
persistent failure the engine retries exactly 3 times, with delays 1000ms,
2000ms and 4000ms (base 1s, ratio 2, strictly increasing), remaining
`pending` with the `Retrying... (k/3)` message between attempts; after the
fourth failure it transitions to `error` with `isDirty` still `true`,
emits the save-error notification, and schedules nothing further — the
retry timer is empty and any later retry delivery is a no-op, so no
automatic retry can occur until a new `scheduleAutosave`/`forceSave`. -/
theorem c4_retry_protocol (st0 : AsState) (d : SaveData)
    (t1 r1 t2 r2 t3 r3 t4 : Int) (m1 m2 m3 m4 : List Char)
    (hin : st0.inFlight = some d) (h0 : st0.retryAttempts = 0)
    (hr1 : t1 + 1000 ≤ r1) (hr2 : t2 + 2000 ≤ r2) (hr3 : t3 + 4000 ≤ r3) :
    ((runA st0 [.complete t1 (.fail m1)]).1.retryTimer = some (t1 + 1000, d) ∧
     (runA st0 [.complete t1 (.fail m1)]).1.status = .pending ∧
     (runA st0 [.complete t1 (.fail m1)]).1.errMsg = some (retryMsg 1)) ∧
    ((runA st0 [.complete t1 (.fail m1), .fireRetry r1,
        .complete t2 (.fail m2)]).1.retryTimer = some (t2 + 2000, d) ∧
     (runA st0 [.complete t1 (.fail m1), .fireRetry r1,
        .complete t2 (.fail m2)]).1.status = .pending ∧
     (runA st0 [.complete t1 (.fail m1), .fireRetry r1,
        .complete t2 (.fail m2)]).1.errMsg = some (retryMsg 2)) ∧
    ((runA st0 [.complete t1 (.fail m1), .fireRetry r1, .complete t2 (.fail m2),
        .fireRetry r2, .complete t3 (.fail m3)]).1.retryTimer =
          some (t3 + 4000, d) ∧
     (runA st0 [.complete t1 (.fail m1), .fireRetry r1, .complete t2 (.fail m2),
        .fireRetry r2, .complete t3 (.fail m3)]).1.status = .pending ∧
     (runA st0 [.complete t1 (.fail m1), .fireRetry r1, .complete t2 (.fail m2),
        .fireRetry r2, .complete t3 (.fail m3)]).1.errMsg =
          some (retryMsg 3)) ∧
    ((runA st0 [.complete t1 (.fail m1), .fireRetry r1, .complete t2 (.fail m2),
        .fireRetry r2, .complete t3 (.fail m3), .fireRetry r3,
        .complete t4 (.fail m4)]).1.status = .error ∧
     (runA st0 [.complete t1 (.fail m1), .fireRetry r1, .complete t2 (.fail m2),
        .fireRetry r2, .complete t3 (.fail m3), .fireRetry r3,
        .complete t4 (.fail m4)]).1.isDirty = true ∧
     (runA st0 [.complete t1 (.fail m1), .fireRetry r1, .complete t2 (.fail m2),
        .fireRetry r2, .complete t3 (.fail m3), .fireRetry r3,
        .complete t4 (.fail m4)]).1.errMsg = some m4 ∧
     (runA st0 [.complete t1 (.fail m1), .fireRetry r1, .complete t2 (.fail m2),
        .fireRetry r2, .complete t3 (.fail m3), .fireRetry r3,
        .complete t4 (.fail m4)]).1.pendingSave = false ∧
     (runA st0 [.complete t1 (.fail m1), .fireRetry r1, .complete t2 (.fail m2),
        .fireRetry r2, .complete t3 (.fail m3), .fireRetry r3,
        .complete t4 (.fail m4)]).1.retryTimer = none ∧
     (runA st0 [.complete t1 (.fail m1), .fireRetry r1, .complete t2 (.fail m2),
        .fireRetry r2, .complete t3 (.fail m3), .fireRetry r3,
        .complete t4 (.fail m4)]).2 =
       [.saveStarted d, .saveStarted d, .saveStarted d, .saveError m4] ∧
     ∀ t' : Int,
       stepA (runA st0 [.complete t1 (.fail m1), .fireRetry r1,
          .complete t2 (.fail m2), .fireRetry r2, .complete t3 (.fail m3),
          .fireRetry r3, .complete t4 (.fail m4)]).1 (.fireRetry t') =
         ((runA st0 [.complete t1 (.fail m1), .fireRetry r1,
            .complete t2 (.fail m2), .fireRetry r2, .complete t3 (.fail m3),
            .fireRetry r3, .complete t4 (.fail m4)]).1, [])) := by
  have e1 : stepA st0 (.complete t1 (.fail m1)) =
      ({ st0 with
          inFlight := none, retryAttempts := 1,
          retryTimer := some (t1 + 1000, d), status := .pending,
          errMsg := some (retryMsg 1), pendingSave := true }, []) := by
    have h := stepA_fail_retry st0 t1 m1 d hin (by rw [h0]; decide)
    rw [h0] at h
    norm_num [RETRY_DELAY_BASE] at h
    exact h
  have e2 : stepA ({ st0 with
        inFlight := none, retryAttempts := 1,
        retryTimer := some (t1 + 1000, d), status := .pending,
        errMsg := some (retryMsg 1), pendingSave := true } : AsState)
      (.fireRetry r1) =
      ({ st0 with
          inFlight := some d, retryAttempts := 1, retryTimer := none,
          status := .saving, errMsg := some (retryMsg 1),
          pendingSave := true }, [.saveStarted d]) := by
    simp [stepA, startSave, hr1]
  have e3 : stepA ({ st0 with
        inFlight := some d, retryAttempts := 1,
        retryTimer := none, status := .saving, errMsg := some (retryMsg 1),
        pendingSave := true } : AsState) (.complete t2 (.fail m2)) =
      ({ st0 with
          inFlight := none, retryAttempts := 2,
          retryTimer := some (t2 + 2000, d), status := .pending,
          errMsg := some (retryMsg 2), pendingSave := true }, []) := by
    norm_num [stepA, MAX_RETRY_ATTEMPTS, RETRY_DELAY_BASE]
  have e4 : stepA ({ st0 with
        inFlight := none, retryAttempts := 2,
        retryTimer := some (t2 + 2000, d), status := .pending,
        errMsg := some (retryMsg 2), pendingSave := true } : AsState)
      (.fireRetry r2) =
      ({ st0 with
          inFlight := some d, retryAttempts := 2, retryTimer := none,
          status := .saving, errMsg := some (retryMsg 2),
          pendingSave := true }, [.saveStarted d]) := by
    simp [stepA, startSave, hr2]
  have e5 : stepA ({ st0 with
        inFlight := some d, retryAttempts := 2,
        retryTimer := none, status := .saving, errMsg := some (retryMsg 2),
        pendingSave := true } : AsState) (.complete t3 (.fail m3)) =
      ({ st0 with
          inFlight := none, retryAttempts := 3,
          retryTimer := some (t3 + 4000, d), status := .pending,
          errMsg := some (retryMsg 3), pendingSave := true }, []) := by
    norm_num [stepA, MAX_RETRY_ATTEMPTS, RETRY_DELAY_BASE]
  have e6 : stepA ({ st0 with
        inFlight := none, retryAttempts := 3,
        retryTimer := some (t3 + 4000, d), status := .pending,
        errMsg := some (retryMsg 3), pendingSave := true } : AsState)
      (.fireRetry r3) =
      ({ st0 with
          inFlight := some d, retryAttempts := 3, retryTimer := none,
          status := .saving, errMsg := some (retryMsg 3),
          pendingSave := true }, [.saveStarted d]) := by
    simp [stepA, startSave, hr3]
  have e7 : stepA ({ st0 with
        inFlight := some d, retryAttempts := 3,
        retryTimer := none, status := .saving, errMsg := some (retryMsg 3),
        pendingSave := true } : AsState) (.complete t4 (.fail m4)) =
      ({ st0 with
          inFlight := none, retryAttempts := 0, retryTimer := none,
          status := .error, errMsg := some m4, isDirty := true,
          pendingSave := false }, [.saveError m4]) := by
    norm_num [stepA, MAX_RETRY_ATTEMPTS]
  have R1 : runA st0 [.complete t1 (.fail m1)] =
      ({ st0 with
          inFlight := none, retryAttempts := 1,
          retryTimer := some (t1 + 1000, d), status := .pending,
          errMsg := some (retryMsg 1), pendingSave := true }, []) := by
    simp [runA, e1]
  have R3 : runA st0 [.complete t1 (.fail m1), .fireRetry r1,
      .complete t2 (.fail m2)] =
      ({ st0 with
          inFlight := none, retryAttempts := 2,
          retryTimer := some (t2 + 2000, d), status := .pending,
          errMsg := some (retryMsg 2), pendingSave := true },
       [.saveStarted d]) := by
    simp [runA, e1, e2, e3]
  have R5 : runA st0 [.complete t1 (.fail m1), .fireRetry r1,
      .complete t2 (.fail m2), .fireRetry r2, .complete t3 (.fail m3)] =
      ({ st0 with
          inFlight := none, retryAttempts := 3,
          retryTimer := some (t3 + 4000, d), status := .pending,
          errMsg := some (retryMsg 3), pendingSave := true },
       [.saveStarted d, .saveStarted d]) := by
    simp [runA, e1, e2, e3, e4, e5]
  have R7 : runA st0 [.complete t1 (.fail m1), .fireRetry r1,
      .complete t2 (.fail m2), .fireRetry r2, .complete t3 (.fail m3),
      .fireRetry r3, .complete t4 (.fail m4)] =
      ({ st0 with
          inFlight := none, retryAttempts := 0, retryTimer := none,
          status := .error, errMsg := some m4, isDirty := true,
          pendingSave := false },
       [.saveStarted d, .saveStarted d, .saveStarted d, .saveError m4]) := by
    simp [runA, e1, e2, e3, e4, e5, e6, e7]
  refine ⟨⟨?_, ?_, ?_⟩, ⟨?_, ?_, ?_⟩, ⟨?_, ?_, ?_⟩,
          ?_, ?_, ?_, ?_, ?_, ?_, ?_⟩ <;>
    simp [R1, R3, R5, R7, stepA]

/-- Witness for `c4_retry_protocol` at a concrete persistent-failure run. -/
theorem c4_witness :
    (runA c4State [.complete 0 (.fail "e".data), .fireRetry 1000,
      .complete 1001 (.fail "e".data), .fireRetry 3001,
      .complete 3002 (.fail "e".data), .fireRetry 7002,
      .complete 7003 (.fail "e".data)]).1.status = .error ∧
    (runA c4State [.complete 0 (.fail "e".data), .fireRetry 1000,
      .complete 1001 (.fail "e".data), .fireRetry 3001,
      .complete 3002 (.fail "e".data), .fireRetry 7002,
      .complete 7003 (.fail "e".data)]).1.isDirty = true ∧
    (runA c4State [.complete 0 (.fail "e".data), .fireRetry 1000,
      .complete 1001 (.fail "e".data), .fireRetry 3001,
      .complete 3002 (.fail "e".data), .fireRetry 7002,
      .complete 7003 (.fail "e".data)]).2 =
    [.saveStarted ⟨none, some "hello".data⟩,
     .saveStarted ⟨none, some "hello".data⟩,
     .saveStarted ⟨none, some "hello".data⟩, .saveError "e".data] := by
  have h := c4_retry_protocol c4State ⟨none, some "hello".data⟩
    0 1000 1001 3001 3002 7002 7003 "e".data "e".data "e".data "e".data
    rfl rfl (by norm_num) (by norm_num) (by norm_num)
  exact ⟨h.2.2.2.1, h.2.2.2.2.1, h.2.2.2.2.2.2.2.2.1⟩

/-! ### C3: trailing debounce (confirmed)

A burst is a sequence of dirty `scheduleAutosave` calls, each arriving
strictly within `AUTOSAVE_DELAY` of its predecessor, interleaved with any
timer deliveries the event loop attempts before the next call.  Every
delivery before the final quiet period is a no-op (the pending timer's due
time lies beyond the next call), each call replaces the timer with its own
payload, and the delivery after the quiet period starts exactly one save
with the last call's payload. -/

theorem runA_append (st : AsState) (l1 l2 : List AsEvent) :
    runA st (l1 ++ l2) =
      ((runA (runA st l1).1 l2).1,
       (runA st l1).2 ++ (runA (runA st l1).1 l2).2) := by
  induction l1 generalizing st with
  | nil => simp [runA]
  | cons e es ih => simp [runA, ih, List.append_assoc]

/-- Debounce-timer deliveries strictly before the pending timer's due time
leave the engine untouched. -/
theorem runFires_noop (fs : List Int) (st : AsState) (ft : Int) (d : SaveData)
    (ht : st.timer = some (ft, d)) (hfs : ∀ t' ∈ fs, t' < ft) :
    runA st (fs.map .fireDebounce) = (st, []) := by
  induction fs with
  | nil => simp [runA]
  | cons a as ih =>
      have ha : ¬ (ft ≤ a) := by
        have := hfs a (List.mem_cons_self a as)
        omega
      have hstep : stepA st (.fireDebounce a) = (st, []) := by
        simp [stepA, ht, ha]
      simp [runA, hstep, ih (fun t' h => hfs t' (List.mem_cons_of_mem a h))]

/-- Running a well-formed burst from a state with no save in flight fires
no save and leaves the debounce timer loaded with the *last* call's
payload, due `AUTOSAVE_DELAY` after the last call. -/
theorem runBurst (rest : List Burst) (x : Burst) (st : AsState)
    (hps : st.pendingSave = false)
    (hok : burstOk st.lastTitle st.lastContent x rest) :
    runA st (burstTrace (x :: rest)) =
      ({ st with
          isDirty := true, status := .pending,
          timer := some ((lastCall x rest).1 + AUTOSAVE_DELAY,
                         (lastCall x rest).2) }, []) := by
  induction rest generalizing x st with
  | nil =>
      obtain ⟨t, d, fs⟩ := x
      simp only [burstOk] at hok
      obtain ⟨hd, hfs, -⟩ := hok
      have hcall : stepA st (.call t d) =
          ({ st with
              isDirty := true, status := .pending,
              timer := some (t + AUTOSAVE_DELAY, d) }, []) := by
        simp [stepA, hps, hd]
      have hfires := runFires_noop fs
        ({ st with
            isDirty := true, status := .pending,
            timer := some (t + AUTOSAVE_DELAY, d) } : AsState)
        (t + AUTOSAVE_DELAY) d rfl hfs
      simp [burstTrace, runA, hcall, hfires, lastCall]
  | cons y ys ih =>
      obtain ⟨t, d, fs⟩ := x
      simp only [burstOk] at hok
      obtain ⟨hd, hfs, hwin, hok'⟩ := hok
      have hcall : stepA st (.call t d) =
          ({ st with
              isDirty := true, status := .pending,
              timer := some (t + AUTOSAVE_DELAY, d) }, []) := by
        simp [stepA, hps, hd]
      have hfires := runFires_noop fs
        ({ st with
            isDirty := true, status := .pending,
            timer := some (t + AUTOSAVE_DELAY, d) } : AsState)
        (t + AUTOSAVE_DELAY) d rfl hfs
      have hih := ih y
        ({ st with
            isDirty := true, status := .pending,
            timer := some (t + AUTOSAVE_DELAY, d) } : AsState)
        hps hok'
      have hexp : burstTrace ((t, d, fs) :: y :: ys) =
          .call t d :: (fs.map .fireDebounce ++ burstTrace (y :: ys)) := rfl
      rw [hexp, runA, hcall]
      rw [runA_append, hfires]
      rw [hih]
      simp [lastCall]

/-- C3: for every burst of dirty `scheduleAutosave` calls to one document,
each within the 10-second debounce window of its predecessor, with no save
in flight: no timer delivery during the burst starts a save, and the
delivery after the full quiet period starts exactly one save whose payload
is the data supplied by the last call. -/
theorem c3_debounce_single_save (st : AsState) (x : Burst) (rest : List Burst)
    (T : Int) (hps : st.pendingSave = false)
    (hok : burstOk st.lastTitle st.lastContent x rest)
    (hT : (lastCall x rest).1 + AUTOSAVE_DELAY ≤ T) :
    (runA st (burstTrace (x :: rest) ++ [.fireDebounce T])).2 =
      [.saveStarted (lastCall x rest).2] ∧
    (runA st (burstTrace (x :: rest) ++ [.fireDebounce T])).1.inFlight =
      some (lastCall x rest).2 := by
  have hburst := runBurst rest x st hps hok
  have hfire : stepA ({ st with
      isDirty := true, status := .pending,
      timer := some ((lastCall x rest).1 + AUTOSAVE_DELAY,
                     (lastCall x rest).2) } : AsState) (.fireDebounce T) =
      ({ st with
          isDirty := true, status := .saving, timer := none,
          pendingSave := true, inFlight := some (lastCall x rest).2 },
       [.saveStarted (lastCall x rest).2]) := by
    simp [stepA, startSave, hT]
  constructor <;> rw [runA_append, hburst] <;> simp [runA, hfire]

/-- Witness for `c3_debounce_single_save`: the spec's scenario — schedule
`{content: "hello"}` then `{content: "hello world"}` 200ms later with a
10s debounce; one fire after the quiet period starts exactly one save with
`content: "hello world"`. -/
theorem c3_witness :
    c3Base.pendingSave = false ∧
    (runA c3Base (burstTrace [(0, ⟨none, some "hello".data⟩, []),
        (200, ⟨none, some "hello world".data⟩, [])] ++
      [.fireDebounce 10200])).2 =
      [.saveStarted ⟨none, some "hello world".data⟩] :=
  ⟨rfl,
   (c3_debounce_single_save c3Base (0, ⟨none, some "hello".data⟩, [])
     [(200, ⟨none, some "hello world".data⟩, [])] 10200 rfl
     (by exact ⟨by decide, by decide, by decide, by decide, by decide,
                trivial⟩)
     (by decide)).1⟩

end Wordwise
